import Mathlib

/-!
Verification of the instant-seal consensus engine
(`client/consensus/instant-seal/src/lib.rs`) and the manual-seal RPC front
end (`client/consensus/manual-seal/src/rpc.rs`).

The Rust code is shallowly embedded: byte vectors (`Vec<u8>`) become
`List Nat`, the external collaborators of one pipeline cycle (transaction
pool, chain selector, proposer environment, inherent-data provider, block
importer) become fields of an environment record holding their results, and
the observable external calls a cycle makes are recorded as a trace of
events.  Fallible Rust calls (`Result`) become `Except`.
-/

/-- Rust `BlockOrigin` from `consensus_common` (origin of a block
arriving at import). -/
inductive BlockOrigin where
  | Genesis
  | NetworkInitialSync
  | NetworkBroadcast
  | ConsensusBroadcast
  | Own
  | File
deriving DecidableEq, Repr

/-- Rust `ForkChoiceStrategy` from `consensus_common`. -/
inductive ForkChoiceStrategy where
  | LongestChain
  | Custom (isNewBest : Bool)
deriving DecidableEq, Repr

/-- Rust `Justification` (`sr_primitives::Justification`, a byte vector). -/
abbrev Justification := List Nat

/-- Rust `CacheKeyId` from the import queue (a short byte identifier). -/
abbrev CacheKeyId := List Nat

/-- Rust `std::time::Duration`, modelled at second granularity (the engine only
ever builds one with `Duration::from_secs`). -/
structure Duration where
  secs : Nat
deriving DecidableEq, Repr

/-- Rust `Duration::from_secs`. -/
def Duration.from_secs (n : Nat) : Duration := ⟨n⟩

/-- Rust `BlockImportParams<B>` from `consensus_common`, the directive handed to
a block importer.  `Header`, `Extrinsic` and `DigestItem` are the
block-type-dependent components, kept abstract. -/
structure BlockImportParams (Header Extrinsic DigestItem : Type) where
  origin : BlockOrigin
  header : Header
  justification : Option Justification
  post_digests : List DigestItem
  body : Option (List Extrinsic)
  finalized : Bool
  auxiliary : List (List Nat × Option (List Nat))
  fork_choice : ForkChoiceStrategy
  allow_missing_state : Bool
deriving DecidableEq, Repr

/-- A block as the proposer returns it: a header plus a list of
extrinsics. -/
structure Block (Header Extrinsic : Type) where
  header : Header
  extrinsics : List Extrinsic
deriving DecidableEq, Repr

/-- Rust `Block::deconstruct` from `sr_primitives`: split a block into header and
body. -/
def Block.deconstruct {Header Extrinsic : Type} (b : Block Header Extrinsic) :
    Header × List Extrinsic :=
  (b.header, b.extrinsics)

/-- Rust `InstantSealVerifier::verify` (lines 69-91 of the engine): builds
an import directive from its four arguments unconditionally, stamping
`finalized = true` and `LongestChain` fork choice, and returns it together
with no cache entries. -/
def InstantSealVerifier.verify {Header Extrinsic DigestItem : Type}
    (origin : BlockOrigin) (header : Header)
    (justification : Option Justification)
    (body : Option (List Extrinsic)) :
    Except String
      (BlockImportParams Header Extrinsic DigestItem ×
       Option (List (CacheKeyId × List Nat))) :=
  Except.ok
    ({ origin := origin
       header := header
       justification := justification
       post_digests := []
       body := body
       finalized := true
       auxiliary := []
       fork_choice := ForkChoiceStrategy.LongestChain
       allow_missing_state := false }, none)

/-- The transaction pool's `status()` report (`txpool::Status`); the engine
only reads `ready`. -/
structure PoolStatus where
  ready : Nat
  future : Nat
deriving DecidableEq, Repr

/-- One observable external call made by a pipeline cycle
(`run_instant_seal`, lines 133-185).  `logWarnCreateForkUnimplemented` is
used only by the spec-modelled command handler further below. -/
inductive Event (Header Extrinsic DigestItem InherentData : Type) where
  | poolStatusQuery
  | bestChainQuery
  | proposerInit (parent : Header)
  | createInherentData
  | propose (inherent : InherentData) (inherent_digests : List DigestItem)
      (max_duration : Duration)
  | importCall (params : BlockImportParams Header Extrinsic DigestItem)
      (cache : List (CacheKeyId × List Nat))
  | logWarnProposeFailed
  | logWarnImportFailed
  | logWarnCreateForkUnimplemented
deriving DecidableEq, Repr

/-- A proposer as returned by `env.init`: `propose(inherent_data,
inherent_digests, max_duration)`. -/
abbrev Proposer (Header Extrinsic DigestItem InherentData Error : Type) :=
  InherentData → List DigestItem → Duration →
    Except Error (Block Header Extrinsic)

/-- The external collaborators of one pipeline cycle, with the results
their calls produce during that cycle: the pool status, the chain
selector's `best_chain()`, the proposer environment's `init`, the
inherent-data providers' `create_inherent_data()`, and the (locked) block
importer's `import_block`. -/
structure CycleEnv (Header Extrinsic DigestItem InherentData Error R : Type) where
  poolStatus : PoolStatus
  best_chain : Except Error Header
  init : Header → Except Error (Proposer Header Extrinsic DigestItem InherentData Error)
  create_inherent_data : Except Error InherentData
  import_block : BlockImportParams Header Extrinsic DigestItem →
    List (CacheKeyId × List Nat) → Except Error R

section Cycle

variable {Header Extrinsic DigestItem InherentData Error R : Type}

/-- Stages 2-7 of a pipeline cycle (`run_instant_seal` lines 139-185),
after the readiness gate: query the chain selector for the best header,
initialize a proposer on it, gather inherent data, request a proposal with
a 5-second budget, and hand a successful proposal to the block importer
with the instant-seal directive and an empty cache map.  Any stage failure
ends the cycle; a propose or import failure is additionally logged. -/
def pipelineStages (env : CycleEnv Header Extrinsic DigestItem InherentData Error R) :
    List (Event Header Extrinsic DigestItem InherentData) :=
  match env.best_chain with
  | Except.error _ => [Event.bestChainQuery]
  | Except.ok best_block_header =>
    match env.init best_block_header with
    | Except.error _ =>
        [Event.bestChainQuery, Event.proposerInit best_block_header]
    | Except.ok proposer =>
      match env.create_inherent_data with
      | Except.error _ =>
          [Event.bestChainQuery, Event.proposerInit best_block_header,
           Event.createInherentData]
      | Except.ok inherent =>
        let preEvents :=
          [Event.bestChainQuery, Event.proposerInit best_block_header,
           Event.createInherentData,
           Event.propose inherent default (Duration.from_secs 5)]
        match proposer inherent default (Duration.from_secs 5) with
        | Except.error _ => preEvents ++ [Event.logWarnProposeFailed]
        | Except.ok block =>
          let (header, body) := block.deconstruct
          let import_params : BlockImportParams Header Extrinsic DigestItem :=
            { origin := BlockOrigin.Own
              header := header
              justification := none
              post_digests := []
              body := some body
              finalized := true
              auxiliary := []
              fork_choice := ForkChoiceStrategy.LongestChain
              allow_missing_state := false }
          match env.import_block import_params [] with
          | Except.error _ =>
              preEvents ++ [Event.importCall import_params [],
                            Event.logWarnImportFailed]
          | Except.ok _ => preEvents ++ [Event.importCall import_params []]

/-- One cycle of the automatic trigger (`run_instant_seal` lines 133-185,
the async block run for each pool notification): read the pool status and
return early when no transaction is ready, otherwise run the pipeline
stages.  The first component is the async block's return value (always
unit — no failure escapes the cycle), the second the trace of external
calls it made. -/
def instantSealCycle (env : CycleEnv Header Extrinsic DigestItem InherentData Error R) :
    Unit × List (Event Header Extrinsic DigestItem InherentData) :=
  if env.poolStatus.ready = 0 then
    ((), [Event.poolStatusQuery])
  else
    ((), Event.poolStatusQuery :: pipelineStages env)

end Cycle

/-- The `BlockImport<B>` trait of `consensus_common`, as the record of its
two methods; `&mut self` becomes explicit state passing over a state type
`σ`.  `BlockCheckParams` and `ImportResult` are external to the engine and
stay abstract. -/
structure BlockImport (σ BlockCheckParams ImportResult Error Header Extrinsic DigestItem : Type) where
  check_block : σ → BlockCheckParams → Except Error ImportResult × σ
  import_block : σ → BlockImportParams Header Extrinsic DigestItem →
    List (CacheKeyId × List Nat) → Except Error ImportResult × σ

/-- Rust `InstantSealBlockImport<I>` (lines 37-39): a wrapper holding an inner
block-import implementation. -/
structure InstantSealBlockImport (σ BlockCheckParams ImportResult Error Header Extrinsic DigestItem : Type) where
  inner : BlockImport σ BlockCheckParams ImportResult Error Header Extrinsic DigestItem

section Shim

variable {σ BlockCheckParams ImportResult Error Header Extrinsic DigestItem : Type}

/-- Rust `InstantSealBlockImport::check_block` (lines 50-53): delegate to the
inner implementation. -/
def InstantSealBlockImport.check_block
    (self : InstantSealBlockImport σ BlockCheckParams ImportResult Error Header Extrinsic DigestItem)
    (s : σ) (block : BlockCheckParams) : Except Error ImportResult × σ :=
  self.inner.check_block s block

/-- Rust `InstantSealBlockImport::import_block` (lines 55-63): delegate to the
inner implementation.  The `TODO: strip out post-digest.` in the source is
a no-op: the directive is forwarded unchanged. -/
def InstantSealBlockImport.import_block
    (self : InstantSealBlockImport σ BlockCheckParams ImportResult Error Header Extrinsic DigestItem)
    (s : σ) (block : BlockImportParams Header Extrinsic DigestItem)
    (cache : List (CacheKeyId × List Nat)) : Except Error ImportResult × σ :=
  self.inner.import_block s block cache

end Shim

/-- Rust `EngineCommand` from `manual-seal/src/rpc.rs` (lines 23-34). -/
inductive EngineCommand where
  | SealNewBlock (force : Bool)
  | CreateFork
deriving DecidableEq, Repr

/-- A `futures::channel::mpsc::UnboundedSender<A>`, observed through the
messages successfully enqueued so far and whether the receiving task has
dropped the receiver. -/
structure UnboundedSender (A : Type) where
  closed : Bool
  queue : List A
deriving DecidableEq, Repr

/-- The error of a failed `unbounded_send` (receiver dropped). -/
inductive SendError where
  | disconnected
deriving DecidableEq, Repr

/-- Rust `UnboundedSender::unbounded_send`: enqueue the message when the channel
is open, report `disconnected` (leaving the queue unchanged) when the
receiver is gone. -/
def UnboundedSender.unbounded_send {A : Type} (ch : UnboundedSender A)
    (msg : A) : Except SendError Unit × UnboundedSender A :=
  if ch.closed then
    (Except.error SendError.disconnected, ch)
  else
    (Except.ok (), { ch with queue := ch.queue ++ [msg] })

/-- The `ManualSeal` RPC handler struct (rpc.rs lines 46-48). -/
structure ManualSeal where
  import_block_channel : UnboundedSender EngineCommand
deriving DecidableEq, Repr

/-- The jsonrpc error type; `create_block` never constructs one. -/
inductive RpcError where
  | internal (code : Int)
deriving DecidableEq, Repr

/-- Rust `ManualSeal::create_block` (rpc.rs lines 58-64): send
`SealNewBlock { force }` on the channel, discard the send result
(`let _ = ...`), and answer `Ok(())`. -/
def ManualSeal.create_block (self : ManualSeal) (force : Bool) :
    Except RpcError Unit × ManualSeal :=
  let sent := self.import_block_channel.unbounded_send
    (EngineCommand.SealNewBlock force)
  (Except.ok (), { self with import_block_channel := sent.2 })

section ManualTrigger

variable {Header Extrinsic DigestItem InherentData Error R : Type}

/-- Modelled from the spec: the engine's command-drain loop (ManualTrigger,
spec §4.3) is not among the sources under verification (only the RPC side
and `EngineCommand` are).  Spec §4.1 step 1: `attempt_production` aborts
silently when `force == false` and the pool has no ready transaction;
otherwise it runs the pipeline stages.  When `force = true` the
short-circuit skips the pool query entirely. -/
def attempt_production (force : Bool)
    (env : CycleEnv Header Extrinsic DigestItem InherentData Error R) :
    List (Event Header Extrinsic DigestItem InherentData) :=
  if force then
    pipelineStages env
  else if env.poolStatus.ready = 0 then
    [Event.poolStatusQuery]
  else
    Event.poolStatusQuery :: pipelineStages env

/-- Modelled from the spec: dispatch of one received `EngineCommand`
(spec §4.3, §7(c)).  `SealNewBlock { force }` invokes the pipeline with
that `force` value; `CreateFork` performs no production action but is
surfaced as a logged unimplemented-command warning rather than silently
discarded. -/
def handle_engine_command (cmd : EngineCommand)
    (env : CycleEnv Header Extrinsic DigestItem InherentData Error R) :
    List (Event Header Extrinsic DigestItem InherentData) :=
  match cmd with
  | EngineCommand.SealNewBlock force => attempt_production force env
  | EngineCommand.CreateFork => [Event.logWarnCreateForkUnimplemented]

end ManualTrigger

/-- Program counter of one trigger task with respect to its import
critical section: before taking the `Mutex` around the shared
`block_import` handle (line 118), inside `import_block` while holding the
lock (lines 175-177), or finished (guard dropped). -/
inductive ImportPc where
  | beforeLock
  | importing
  | done
deriving DecidableEq, Repr

/-- Identifier of one of two concurrently running pipeline cycles. -/
inductive CycleId where
  | first
  | second
deriving DecidableEq, Repr

/-- Joint state of two concurrent pipeline cycles contending for the
`Arc<Mutex<BoxBlockImport>>` of `run_instant_seal`: each task's program
counter and the current owner of the mutex (none = unlocked). -/
structure ImportLockState where
  pc1 : ImportPc
  pc2 : ImportPc
  owner : Option CycleId
deriving DecidableEq, Repr

/-- Interleaving semantics of the two cycles' effectful tails:
`block_import.lock()` blocks until the mutex is free and takes ownership;
dropping the guard after `import_block` returns releases it. -/
inductive ImportLockStep : ImportLockState → ImportLockState → Prop where
  | acquire1 (p2 : ImportPc) :
      ImportLockStep ⟨ImportPc.beforeLock, p2, none⟩
        ⟨ImportPc.importing, p2, some CycleId.first⟩
  | release1 (p2 : ImportPc) :
      ImportLockStep ⟨ImportPc.importing, p2, some CycleId.first⟩
        ⟨ImportPc.done, p2, none⟩
  | acquire2 (p1 : ImportPc) :
      ImportLockStep ⟨p1, ImportPc.beforeLock, none⟩
        ⟨p1, ImportPc.importing, some CycleId.second⟩
  | release2 (p1 : ImportPc) :
      ImportLockStep ⟨p1, ImportPc.importing, some CycleId.second⟩
        ⟨p1, ImportPc.done, none⟩

/-- States reachable from both cycles pending and the mutex free. -/
inductive ImportLockReachable : ImportLockState → Prop where
  | init : ImportLockReachable ⟨ImportPc.beforeLock, ImportPc.beforeLock, none⟩
  | step {s s' : ImportLockState} : ImportLockReachable s →
      ImportLockStep s s' → ImportLockReachable s'

/-- A concrete proposer over `Nat`-instantiated block components, used to
exercise the cycle on explicit inputs. -/
def demoProposer : Proposer Nat Nat Nat Nat String :=
  fun _ _ _ => Except.ok ⟨5, [9, 9]⟩

/-- A concrete cycle environment: one ready transaction and every
collaborator succeeding. -/
def demoEnv : CycleEnv Nat Nat Nat Nat String Unit where
  poolStatus := ⟨1, 0⟩
  best_chain := Except.ok 0
  init := fun _ => Except.ok demoProposer
  create_inherent_data := Except.ok 3
  import_block := fun _ _ => Except.ok ()

/-- Variant of `demoEnv` with an empty transaction pool. -/
def emptyPoolEnv : CycleEnv Nat Nat Nat Nat String Unit :=
  { demoEnv with poolStatus := ⟨0, 0⟩ }

/-- C3: `InstantSealVerifier::verify` returns `Ok` on every combination of
origin, header, justification and body — never an error — and the directive
it returns has `finalized = true`, `LongestChain` fork choice, empty
post-digests and auxiliary data, no cache entries, and carries the four
inputs through unchanged. -/
theorem instant_seal_verifier_verify_ok {Header Extrinsic DigestItem : Type}
    (origin : BlockOrigin) (header : Header)
    (justification : Option Justification)
    (body : Option (List Extrinsic)) :
    @InstantSealVerifier.verify Header Extrinsic DigestItem
        origin header justification body =
      Except.ok
        ({ origin := origin
           header := header
           justification := justification
           post_digests := []
           body := body
           finalized := true
           auxiliary := []
           fork_choice := ForkChoiceStrategy.LongestChain
           allow_missing_state := false }, none) := rfl

/-- C2: a cycle of the automatic trigger (which never forces) with zero
ready transactions is a silent no-op: beyond reading the pool status it
makes no external call at all — no chain-selection query, no proposer
initialization, no proposal and no import — and returns unit. -/
theorem instant_seal_empty_pool_no_op
    {Header Extrinsic DigestItem InherentData Error R : Type}
    (env : CycleEnv Header Extrinsic DigestItem InherentData Error R)
    (h : env.poolStatus.ready = 0) :
    instantSealCycle env = ((), [Event.poolStatusQuery]) := by
  simp [instantSealCycle, h]

/-- C2 witness. -/
theorem instant_seal_empty_pool_no_op_witness :
    instantSealCycle emptyPoolEnv =
      ((), [Event.poolStatusQuery]) :=
  instant_seal_empty_pool_no_op emptyPoolEnv rfl

/-- C1: whenever a cycle's proposal succeeds, the block is handed to the
importer with the fixed instant-seal directive — `origin = Own`,
`finalized = true`, `fork_choice = LongestChain`,
`allow_missing_state = false`, no justification, empty post-digests and
auxiliary data — and an empty side-cache map, whatever the pool state
beyond the readiness gate. -/
theorem proposed_block_import_directive
    {Header Extrinsic DigestItem InherentData Error R : Type}
    (env : CycleEnv Header Extrinsic DigestItem InherentData Error R)
    (best : Header) (proposer : Proposer Header Extrinsic DigestItem InherentData Error)
    (inherent : InherentData) (blk : Block Header Extrinsic)
    (hready : ¬ env.poolStatus.ready = 0)
    (hbest : env.best_chain = Except.ok best)
    (hinit : env.init best = Except.ok proposer)
    (hinh : env.create_inherent_data = Except.ok inherent)
    (hprop : proposer inherent default (Duration.from_secs 5) = Except.ok blk) :
    Event.importCall
      { origin := BlockOrigin.Own
        header := blk.header
        justification := none
        post_digests := []
        body := some blk.extrinsics
        finalized := true
        auxiliary := []
        fork_choice := ForkChoiceStrategy.LongestChain
        allow_missing_state := false } [] ∈ (instantSealCycle env).2 := by
  cases himp : env.import_block
      { origin := BlockOrigin.Own
        header := blk.header
        justification := none
        post_digests := []
        body := some blk.extrinsics
        finalized := true
        auxiliary := []
        fork_choice := ForkChoiceStrategy.LongestChain
        allow_missing_state := false } [] <;>
    simp [instantSealCycle, pipelineStages, hready, hbest, hinit, hinh, hprop,
      Block.deconstruct, himp]

/-- C1 witness. -/
theorem proposed_block_import_directive_witness :
    Event.importCall
      ({ origin := BlockOrigin.Own
         header := 5
         justification := none
         post_digests := []
         body := some [9, 9]
         finalized := true
         auxiliary := []
         fork_choice := ForkChoiceStrategy.LongestChain
         allow_missing_state := false } : BlockImportParams Nat Nat Nat) []
      ∈ (instantSealCycle demoEnv).2 :=
  proposed_block_import_directive demoEnv 0 demoProposer 3 ⟨5, [9, 9]⟩
    (by decide) rfl rfl rfl rfl

/-- C5: an import call only ever happens in a cycle whose best-chain query,
proposer initialization, inherent-data creation and proposal all succeeded
— so a failure of any stage before import aborts the cycle with no import
call — and the cycle's return value is unit for every environment,
including ones whose stages or import fail: no failure reaches the
caller. -/
theorem stage_failure_aborts_without_import
    {Header Extrinsic DigestItem InherentData Error R : Type}
    (env : CycleEnv Header Extrinsic DigestItem InherentData Error R)
    (p : BlockImportParams Header Extrinsic DigestItem)
    (c : List (CacheKeyId × List Nat))
    (hmem : Event.importCall p c ∈ (instantSealCycle env).2) :
    (instantSealCycle env).1 = () ∧
    ∃ best proposer inherent blk,
      env.best_chain = Except.ok best ∧
      env.init best = Except.ok proposer ∧
      env.create_inherent_data = Except.ok inherent ∧
      proposer inherent default (Duration.from_secs 5) = Except.ok blk := by
  refine ⟨rfl, ?_⟩
  by_cases h0 : env.poolStatus.ready = 0
  · simp [instantSealCycle, h0] at hmem
  · simp only [instantSealCycle, h0, if_false, ite_false] at hmem
    cases hbest : env.best_chain with
    | error e => simp [pipelineStages, hbest] at hmem
    | ok best =>
      cases hinit : env.init best with
      | error e => simp [pipelineStages, hbest, hinit] at hmem
      | ok proposer =>
        cases hinh : env.create_inherent_data with
        | error e => simp [pipelineStages, hbest, hinit, hinh] at hmem
        | ok inherent =>
          cases hprop : proposer inherent default (Duration.from_secs 5) with
          | error e =>
              simp [pipelineStages, hbest, hinit, hinh, hprop] at hmem
          | ok blk =>
              exact ⟨best, proposer, inherent, blk, rfl, hinit, rfl, hprop⟩

/-- C5 witness. -/
theorem stage_failure_aborts_without_import_witness :
    (instantSealCycle demoEnv).1 = () ∧
    ∃ best proposer inherent blk,
      demoEnv.best_chain = Except.ok best ∧
      demoEnv.init best = Except.ok proposer ∧
      demoEnv.create_inherent_data = Except.ok inherent ∧
      proposer inherent default (Duration.from_secs 5) = Except.ok blk :=
  stage_failure_aborts_without_import demoEnv
    { origin := BlockOrigin.Own
      header := 5
      justification := none
      post_digests := []
      body := some [9, 9]
      finalized := true
      auxiliary := []
      fork_choice := ForkChoiceStrategy.LongestChain
      allow_missing_state := false } [] (by decide)

/-- C9: every proposal request a cycle makes carries a maximum time budget
of exactly `Duration::from_secs(5)` — five seconds. -/
theorem propose_budget_five_seconds
    {Header Extrinsic DigestItem InherentData Error R : Type}
    (env : CycleEnv Header Extrinsic DigestItem InherentData Error R)
    (inherent : InherentData) (digests : List DigestItem) (dur : Duration)
    (hmem : Event.propose inherent digests dur ∈ (instantSealCycle env).2) :
    dur = Duration.from_secs 5 ∧ dur.secs = 5 := by
  suffices h : dur = Duration.from_secs 5 by
    exact ⟨h, by simp [h, Duration.from_secs]⟩
  by_cases h0 : env.poolStatus.ready = 0
  · simp [instantSealCycle, h0] at hmem
  · simp only [instantSealCycle, h0, if_false, ite_false] at hmem
    cases hbest : env.best_chain with
    | error e => simp [pipelineStages, hbest] at hmem
    | ok best =>
      cases hinit : env.init best with
      | error e => simp [pipelineStages, hbest, hinit] at hmem
      | ok proposer =>
        cases hinh : env.create_inherent_data with
        | error e => simp [pipelineStages, hbest, hinit, hinh] at hmem
        | ok inh =>
          cases hprop : proposer inh default (Duration.from_secs 5) with
          | error e =>
              simp [pipelineStages, hbest, hinit, hinh, hprop] at hmem
              exact hmem.2.2
          | ok blk =>
              cases himp : env.import_block
                  { origin := BlockOrigin.Own
                    header := blk.header
                    justification := none
                    post_digests := []
                    body := some blk.extrinsics
                    finalized := true
                    auxiliary := []
                    fork_choice := ForkChoiceStrategy.LongestChain
                    allow_missing_state := false } [] with
              | error e =>
                  simp [pipelineStages, hbest, hinit, hinh, hprop,
                    Block.deconstruct, himp] at hmem
                  exact hmem.2.2
              | ok r =>
                  simp [pipelineStages, hbest, hinit, hinh, hprop,
                    Block.deconstruct, himp] at hmem
                  exact hmem.2.2

/-- C9 witness. -/
theorem propose_budget_five_seconds_witness :
    Duration.from_secs 5 = Duration.from_secs 5 ∧
    (Duration.from_secs 5).secs = 5 :=
  propose_budget_five_seconds demoEnv 3 ([] : List Nat)
    (Duration.from_secs 5) (by decide)

/-- C4 (spec-modelled ManualTrigger): handling `SealNewBlock { force: true }`
bypasses the readiness gate — even with zero ready transactions the
pipeline proceeds, and (its pre-proposal stages succeeding) a proposal
request is made. -/
theorem force_seal_bypasses_readiness
    {Header Extrinsic DigestItem InherentData Error R : Type}
    (env : CycleEnv Header Extrinsic DigestItem InherentData Error R)
    (best : Header)
    (proposer : Proposer Header Extrinsic DigestItem InherentData Error)
    (inherent : InherentData)
    (hready : env.poolStatus.ready = 0)
    (hbest : env.best_chain = Except.ok best)
    (hinit : env.init best = Except.ok proposer)
    (hinh : env.create_inherent_data = Except.ok inherent) :
    Event.propose inherent default (Duration.from_secs 5) ∈
      handle_engine_command (EngineCommand.SealNewBlock true) env := by
  cases hprop : proposer inherent default (Duration.from_secs 5) with
  | error e =>
      simp [handle_engine_command, attempt_production, pipelineStages,
        hbest, hinit, hinh, hprop]
  | ok blk =>
      cases himp : env.import_block
          { origin := BlockOrigin.Own
            header := blk.header
            justification := none
            post_digests := []
            body := some blk.extrinsics
            finalized := true
            auxiliary := []
            fork_choice := ForkChoiceStrategy.LongestChain
            allow_missing_state := false } [] <;>
        simp [handle_engine_command, attempt_production, pipelineStages,
          hbest, hinit, hinh, hprop, Block.deconstruct, himp]

/-- C4 witness. -/
theorem force_seal_bypasses_readiness_witness :
    Event.propose 3 (default : List Nat) (Duration.from_secs 5) ∈
      handle_engine_command (EngineCommand.SealNewBlock true) emptyPoolEnv :=
  force_seal_bypasses_readiness emptyPoolEnv 0 demoProposer 3
    rfl rfl rfl rfl

/-- C8 (spec-modelled ManualTrigger): a received `CreateFork` command
triggers no production action — its trace holds no chain query, proposal
or import — but is surfaced as a logged unimplemented-command warning
rather than silently discarded. -/
theorem create_fork_surfaced_not_silently_discarded
    {Header Extrinsic DigestItem InherentData Error R : Type}
    (env : CycleEnv Header Extrinsic DigestItem InherentData Error R) :
    handle_engine_command EngineCommand.CreateFork env =
      [Event.logWarnCreateForkUnimplemented] := rfl

/-- C7: the shim's two methods delegate to the injected inner
implementation unchanged: same state, same parameters (the import
directive is forwarded with its post-digests untouched), and exactly the
inner result with the inner error type preserved. -/
theorem block_import_shim_pass_through
    {σ BlockCheckParams ImportResult Error Header Extrinsic DigestItem : Type}
    (self : InstantSealBlockImport σ BlockCheckParams ImportResult Error
      Header Extrinsic DigestItem)
    (s t : σ) (params : BlockCheckParams)
    (block : BlockImportParams Header Extrinsic DigestItem)
    (cache : List (CacheKeyId × List Nat)) :
    self.check_block s params = self.inner.check_block s params ∧
    self.import_block t block cache = self.inner.import_block t block cache :=
  ⟨rfl, rfl⟩

/-- Lock-discipline invariant of the shared import mutex: a cycle is inside
its import critical section only while it owns the mutex. -/
theorem importLock_owner_invariant {s : ImportLockState}
    (h : ImportLockReachable s) :
    (s.pc1 = ImportPc.importing → s.owner = some CycleId.first) ∧
    (s.pc2 = ImportPc.importing → s.owner = some CycleId.second) := by
  induction h with
  | init => simp
  | step _ hstep ih => cases hstep <;> simp_all

/-- C6: in every reachable interleaving of two concurrent pipeline cycles,
their import critical sections are mutually exclusive — the mutex around
the shared block-import handle never lets both cycles be inside
`import_block` at the same time. -/
theorem import_critical_sections_mutually_exclusive
    (s : ImportLockState) (h : ImportLockReachable s) :
    ¬ (s.pc1 = ImportPc.importing ∧ s.pc2 = ImportPc.importing) := by
  rintro ⟨h1, h2⟩
  obtain ⟨o1, o2⟩ := importLock_owner_invariant h
  have hcontra := (o1 h1).symm.trans (o2 h2)
  simp at hcontra

/-- C6 witness: the state where the first cycle has entered its import
critical section is reachable, and there the sections are exclusive. -/
theorem import_critical_sections_mutually_exclusive_witness :
    ¬ ((ImportLockState.mk ImportPc.importing ImportPc.beforeLock
          (some CycleId.first)).pc1 = ImportPc.importing ∧
       (ImportLockState.mk ImportPc.importing ImportPc.beforeLock
          (some CycleId.first)).pc2 = ImportPc.importing) :=
  import_critical_sections_mutually_exclusive
    (ImportLockState.mk ImportPc.importing ImportPc.beforeLock
      (some CycleId.first))
    (ImportLockReachable.step ImportLockReachable.init
      (ImportLockStep.acquire1 ImportPc.beforeLock))

/-- C10: `engine_createBlock(force)` always answers `Ok(())`: it attempts
exactly one `SealNewBlock { force }` send on the channel — the command is
enqueued when the channel is open, and when the receiver is gone the send
error is discarded and the queue is unchanged — and block-production
success or failure is never observable in the return value. -/
theorem create_block_enqueues_one_and_returns_ok
    (self : ManualSeal) (force : Bool) :
    (self.create_block force).1 = Except.ok () ∧
    (self.create_block force).2.import_block_channel.closed =
      self.import_block_channel.closed ∧
    (self.create_block force).2.import_block_channel.queue =
      (if self.import_block_channel.closed then
        self.import_block_channel.queue
      else
        self.import_block_channel.queue ++
          [EngineCommand.SealNewBlock force]) := by
  by_cases h : self.import_block_channel.closed = true <;>
    simp [ManualSeal.create_block, UnboundedSender.unbounded_send, h]
